import Mathlib

/-!
# Shallow embedding of the `xtrading-models` data model

This file embeds the pydantic/dataclass models of the repository
(`order.py`, `bar.py`, `trade.py`) into Lean 4 and proves, or refutes,
the spec claims about them.

Modelling conventions:
* Python `float` fields that only ever hold ordinary numeric data are
  embedded as `Rat`; the distinguished sentinel `UNSET_DOUBLE = float('inf')`
  is embedded by the two-constructor type `FVal` (`fin q` for a finite
  value, `inf` for the sentinel).
* `Optional[float]` becomes `Option Rat`; Python `int` becomes `Int`;
  `str` becomes `String`; `bool` becomes `Bool`.
* A failing pydantic validation (raising `ValidationError`) is embedded
  as `Except.error` carrying the `ValueError` message; a successful
  construction as `Except.ok`.
* The process-wide class variable `Order._next_order_id` is embedded by
  explicit state passing: construction takes the current counter and
  returns the new counter.
* pydantic v2 semantics used by `order.py` (config
  `validate_assignment = True` plus a `model_validator(mode='after')`):
  - field population happens first; none of the declared fields carries a
    constraint that can fail, so field validation always succeeds;
  - `model_post_init` runs next, inside the model schema;
  - `model_validator(mode='after')` wraps the model schema, so it runs
    after `model_post_init`, and it is re-run by every attribute
    assignment because `validate_assignment` is enabled.  In particular
    the assignment `self.orderId = Order._next_order_id` inside
    `model_post_init` already re-runs the after-validator on the updated
    instance and raises there when the trailing invariant is violated,
    before the counter increment on the following line is reached.
-/

/-- `UNSET_INTEGER = 2**31 - 1` from `order.py`. -/
def UNSET_INTEGER : Int := 2 ^ 31 - 1

/-- Embedding of a Python float field that may hold the
`UNSET_DOUBLE = float('inf')` sentinel: either a finite value or the
infinity sentinel. -/
inductive FVal where
  | fin (q : Rat)
  | inf
deriving Repr, DecidableEq

/-- `UNSET_DOUBLE = float('inf')` from `order.py`. -/
def UNSET_DOUBLE : FVal := FVal.inf

/-- The Python class an order instance was created through.  In the
source this is the runtime class of the instance; it decides which
validators pydantic attaches (only `TrailingOrder` subclasses carry
`validate_trailing_params`). -/
inductive OrderClass where
  | base
  | market
  | limit
  | stop
  | stopLimit
  | trailingStopMarket
  | trailingStopLimit
deriving Repr, DecidableEq

/-- The scalar fields of `Order` and of all its subclasses, flattened.
Field names and defaults are those of `order.py`:
base `Order` declares `orderId .. transmit`; `StopOrder` adds
`triggered`/`triggerPrice`; `StopLimitOrder` adds `limitPrice`;
`TrailingOrder` adds `trailingDistance`/`trailingPercent`/`stopPrice`/
`extremePrice`; `TrailingStopLimit` adds `limitOffset`.  The recursive
`children` list lives in the wrapper type `Order` below. -/
structure OrderFields where
  klass : OrderClass
  orderId : Int
  permId : Int
  clientId : Int
  action : String
  totalQuantity : Rat
  orderType : String
  price : FVal
  tif : String
  goodTillDate : String
  goodAfterTime : String
  ocaGroup : String
  orderRef : String
  parentId : Int
  transmit : Bool
  triggered : Bool
  triggerPrice : Option Rat
  limitPrice : FVal
  trailingDistance : Option Rat
  trailingPercent : Option Rat
  stopPrice : Option Rat
  extremePrice : Option Rat
  limitOffset : Rat
deriving Repr, DecidableEq

/-- The field defaults declared in `order.py` (`orderId = 0`,
`parentId = UNSET_INTEGER`, `price = UNSET_DOUBLE`, `transmit = True`,
`triggered = False`, optionals `None`, strings empty, numbers zero). -/
def orderDefaults : OrderFields :=
  { klass := OrderClass.base
    orderId := 0
    permId := 0
    clientId := 0
    action := ""
    totalQuantity := 0
    orderType := ""
    price := UNSET_DOUBLE
    tif := ""
    goodTillDate := ""
    goodAfterTime := ""
    ocaGroup := ""
    orderRef := ""
    parentId := UNSET_INTEGER
    transmit := true
    triggered := false
    triggerPrice := none
    limitPrice := UNSET_DOUBLE
    trailingDistance := none
    trailingPercent := none
    stopPrice := none
    extremePrice := none
    limitOffset := 0 }

/-- An order instance: its scalar fields plus the `children` list
(`children: list[Order]`, `default_factory=list`). -/
inductive Order where
  | mk (fields : OrderFields) (children : List Order)

/-- Accessor for the scalar fields of an order. -/
def Order.fields : Order → OrderFields
  | .mk f _ => f

/-- Accessor for the `children` list of an order. -/
def Order.children : Order → List Order
  | .mk _ c => c

/-- Which classes carry the `validate_trailing_params` model validator:
exactly the `TrailingOrder` subclasses. -/
def isTrailingClass : OrderClass → Bool
  | .trailingStopMarket => true
  | .trailingStopLimit => true
  | _ => false

/-- The `ValueError` message of `TrailingOrder.validate_trailing_params`. -/
def trailingErrMsg : String :=
  "Exactly one of trailingDistance or trailingPercent must be specified"

/-- `TrailingOrder.validate_trailing_params` from `order.py`: raise unless
exactly one of `trailingDistance` / `trailingPercent` is set. -/
def validate_trailing_params (o : OrderFields) : Except String OrderFields :=
  if (o.trailingDistance.isNone && o.trailingPercent.isNone)
      || (o.trailingDistance.isSome && o.trailingPercent.isSome) then
    Except.error trailingErrMsg
  else
    Except.ok o

/-- Run the `model_validator(mode='after')` validators attached to the
instance's class: only `TrailingOrder` subclasses have one. -/
def runAfterValidators (o : OrderFields) : Except String OrderFields :=
  if isTrailingClass o.klass then validate_trailing_params o else Except.ok o

/-- `Order.model_post_init` from `order.py`, with the class variable
`Order._next_order_id` passed as explicit state.  When `orderId == 0`
the assignment `self.orderId = Order._next_order_id` goes through
pydantic's `validate_assignment` machinery, which re-runs the
after-model validators on the updated instance; only when that
succeeds is the counter increment on the next line reached. -/
def model_post_init (o : OrderFields) (counter : Int) :
    Except String OrderFields × Int :=
  if o.orderId == 0 then
    match runAfterValidators { o with orderId := counter } with
    | Except.ok o' => (Except.ok o', counter + 1)
    | Except.error e => (Except.error e, counter)
  else
    (Except.ok o, counter)

/-- Full pydantic construction pipeline for an assembled field record:
field population (always succeeds for these models), then
`model_post_init`, then the `mode='after'` model validators.  Returns
the constructed instance (with an empty `children` list, from
`default_factory=list`) and the new value of `Order._next_order_id`. -/
def finalizeConstruction (o : OrderFields) (counter : Int) :
    Except String Order × Int :=
  match model_post_init o counter with
  | (Except.ok o', counter') =>
      match runAfterValidators o' with
      | Except.ok o'' => (Except.ok (Order.mk o'' []), counter')
      | Except.error e => (Except.error e, counter')
  | (Except.error e, counter') => (Except.error e, counter')

/-- Keyword assembly of a plain `Order(...)` construction as exercised in
the tests: `Order(action=…, totalQuantity=…, orderType=…, price=…)`,
optionally with an explicit `orderId` (0 models "not supplied"). -/
def OrderConstruct (action : String) (totalQuantity : Rat)
    (orderType : String) (price : FVal) (suppliedOrderId : Int)
    (counter : Int) : Except String Order × Int :=
  finalizeConstruction
    { orderDefaults with
        klass := OrderClass.base
        action := action
        totalQuantity := totalQuantity
        orderType := orderType
        price := price
        orderId := suppliedOrderId }
    counter

/-- `MarketOrder.__init__`: passes `orderType='MKT'`, `action`,
`totalQuantity` up to the base constructor. -/
def MarketOrderConstruct (action : String) (totalQuantity : Rat)
    (suppliedOrderId : Int) (counter : Int) : Except String Order × Int :=
  finalizeConstruction
    { orderDefaults with
        klass := OrderClass.market
        action := action
        totalQuantity := totalQuantity
        orderType := "MKT"
        orderId := suppliedOrderId }
    counter

/-- `LimitOrder.__init__`: passes `orderType='LMT'` and `price`. -/
def LimitOrderConstruct (action : String) (totalQuantity : Rat)
    (price : Rat) (suppliedOrderId : Int) (counter : Int) :
    Except String Order × Int :=
  finalizeConstruction
    { orderDefaults with
        klass := OrderClass.limit
        action := action
        totalQuantity := totalQuantity
        orderType := "LMT"
        price := FVal.fin price
        orderId := suppliedOrderId }
    counter

/-- `StopOrder.__init__`: `kwargs.setdefault('orderType', 'STP')` (the
`kwOrderType` argument models an `orderType` passed through `**kwargs`,
`none` when absent), then `price=stopPrice`. -/
def StopOrderConstruct (action : String) (totalQuantity : Rat)
    (stopPrice : Rat) (kwOrderType : Option String) (suppliedOrderId : Int)
    (counter : Int) : Except String Order × Int :=
  finalizeConstruction
    { orderDefaults with
        klass := OrderClass.stop
        action := action
        totalQuantity := totalQuantity
        orderType := kwOrderType.getD "STP"
        price := FVal.fin stopPrice
        orderId := suppliedOrderId }
    counter

/-- `StopLimitOrder.__init__`: goes through `StopOrder.__init__` with
`orderType='STP LMT'` in kwargs, so `price=stopPrice` and
`limitPrice` set. -/
def StopLimitOrderConstruct (action : String) (totalQuantity : Rat)
    (limitPrice : Rat) (stopPrice : Rat) (suppliedOrderId : Int)
    (counter : Int) : Except String Order × Int :=
  finalizeConstruction
    { orderDefaults with
        klass := OrderClass.stopLimit
        action := action
        totalQuantity := totalQuantity
        orderType := "STP LMT"
        price := FVal.fin stopPrice
        limitPrice := FVal.fin limitPrice
        orderId := suppliedOrderId }
    counter

/-- `TrailingStopMarket.__init__` → `TrailingOrder.__init__` →
`StopOrder.__init__` with `stopPrice=0.0` and `orderType='TRAIL'`: the
positional `stopPrice` becomes the base `price` field, while the pydantic
field `stopPrice` keeps its `None` default. -/
def TrailingStopMarketConstruct (action : String) (totalQuantity : Rat)
    (trailingDistance : Option Rat) (trailingPercent : Option Rat)
    (suppliedOrderId : Int) (counter : Int) : Except String Order × Int :=
  finalizeConstruction
    { orderDefaults with
        klass := OrderClass.trailingStopMarket
        action := action
        totalQuantity := totalQuantity
        orderType := "TRAIL"
        price := FVal.fin 0
        trailingDistance := trailingDistance
        trailingPercent := trailingPercent
        orderId := suppliedOrderId }
    counter

/-- `TrailingStopLimit.__init__`: as `TrailingStopMarket` but with
`orderType='TRAIL LIMIT'` and the extra `limitOffset` field. -/
def TrailingStopLimitConstruct (action : String) (totalQuantity : Rat)
    (limitOffset : Rat) (trailingDistance : Option Rat)
    (trailingPercent : Option Rat) (suppliedOrderId : Int) (counter : Int) :
    Except String Order × Int :=
  finalizeConstruction
    { orderDefaults with
        klass := OrderClass.trailingStopLimit
        action := action
        totalQuantity := totalQuantity
        orderType := "TRAIL LIMIT"
        price := FVal.fin 0
        trailingDistance := trailingDistance
        trailingPercent := trailingPercent
        limitOffset := limitOffset
        orderId := suppliedOrderId }
    counter

/-- Setting an attribute on an order (pydantic `validate_assignment`):
the candidate updated record is validated by the `mode='after'` model
validators; on failure the instance is left unchanged and the error
surfaces, on success the update takes effect.  `children` is untouched. -/
def Order.assignFields (o : Order) (upd : OrderFields) : Except String Order :=
  match runAfterValidators upd with
  | Except.ok f => Except.ok (Order.mk f o.children)
  | Except.error e => Except.error e

/-- `order.orderType = v` under `validate_assignment`. -/
def Order.assignOrderType (o : Order) (v : String) : Except String Order :=
  o.assignFields { o.fields with orderType := v }

/-- `order.trailingDistance = v` under `validate_assignment`. -/
def Order.assignTrailingDistance (o : Order) (v : Option Rat) :
    Except String Order :=
  o.assignFields { o.fields with trailingDistance := v }

/-- `order.trailingPercent = v` under `validate_assignment`. -/
def Order.assignTrailingPercent (o : Order) (v : Option Rat) :
    Except String Order :=
  o.assignFields { o.fields with trailingPercent := v }

/-- `order.stopPrice = v` under `validate_assignment`. -/
def Order.assignStopPrice (o : Order) (v : Option Rat) :
    Except String Order :=
  o.assignFields { o.fields with stopPrice := v }

/-- `order.extremePrice = v` under `validate_assignment`. -/
def Order.assignExtremePrice (o : Order) (v : Option Rat) :
    Except String Order :=
  o.assignFields { o.fields with extremePrice := v }

/-- `Order.add_child` from `order.py`:
`child.parentId = self.orderId` (an attribute assignment, hence
re-validated under `validate_assignment`) followed by
`self.children.append(child)` (a plain list mutation, not validated).
The appended element is the child as mutated. -/
def Order.add_child (parent child : Order) : Except String (Order × Order) :=
  match child.assignFields { child.fields with parentId := parent.fields.orderId } with
  | Except.ok child' =>
      Except.ok (Order.mk parent.fields (parent.children ++ [child']), child')
  | Except.error e => Except.error e

/-! ## BarData (`bar.py`) -/

/-- The fields of `BarData` from `bar.py` (`average`/`barCount` are
commented out in the source).  `date` is a required `datetime`,
embedded as an opaque `Int` timestamp. -/
structure BarData where
  date : Int
  «open» : Rat
  high : Rat
  low : Rat
  close : Rat
  volume : Int
deriving Repr, DecidableEq

/-- Error message of the `high < low` branch of `validate_ohlc`. -/
def msgHighLow (high low : Rat) : String :=
  "High (" ++ toString high ++ ") must be >= Low (" ++ toString low ++ ")"

/-- Error message of the `high < open` branch of `validate_ohlc`. -/
def msgHighOpen (high opn : Rat) : String :=
  "High (" ++ toString high ++ ") must be >= Open (" ++ toString opn ++ ")"

/-- Error message of the `high < close` branch of `validate_ohlc`. -/
def msgHighClose (high close : Rat) : String :=
  "High (" ++ toString high ++ ") must be >= Close (" ++ toString close ++ ")"

/-- Error message of the `low > open` branch of `validate_ohlc`. -/
def msgLowOpen (low opn : Rat) : String :=
  "Low (" ++ toString low ++ ") must be <= Open (" ++ toString opn ++ ")"

/-- Error message of the `low > close` branch of `validate_ohlc`. -/
def msgLowClose (low close : Rat) : String :=
  "Low (" ++ toString low ++ ") must be <= Close (" ++ toString close ++ ")"

/-- `BarData.validate_ohlc` from `bar.py`: the five sequential checks of
the `mode='after'` model validator. -/
def validate_ohlc (b : BarData) : Except String BarData :=
  if b.high < b.low then Except.error (msgHighLow b.high b.low)
  else if b.high < b.«open» then Except.error (msgHighOpen b.high b.«open»)
  else if b.high < b.close then Except.error (msgHighClose b.high b.close)
  else if b.low > b.«open» then Except.error (msgLowOpen b.low b.«open»)
  else if b.low > b.close then Except.error (msgLowClose b.low b.close)
  else Except.ok b

/-- Construction of a `BarData`: field population (`date` is required
and non-null by the `date_required` field validator, which the `Int`
embedding makes vacuous), then the `validate_ohlc` model validator.
On error no instance is produced. -/
def BarDataConstruct (date : Int) (opn high low close : Rat) (volume : Int) :
    Except String BarData :=
  validate_ohlc
    { date := date, «open» := opn, high := high, low := low, close := close
      volume := volume }

/-! ## Trade lifecycle (`trade.py`) and fills (`fill.py`)

`fill.py` is referenced by `trade.py` and `__init__.py` but its source is
not part of the repository snapshot; the record shapes below follow the
spec's description of Execution / CommissionReport / Fill. -/

/-- Modelled from the spec: `Execution` (`fill.py` is missing from the
snapshot): `orderId`, `time`, `shares`, `price`, `side`. -/
structure Execution where
  orderId : Int
  time : Int
  shares : Rat
  price : Rat
  side : String
deriving Repr, DecidableEq

/-- Modelled from the spec: `CommissionReport` (`fill.py` is missing from
the snapshot): `commission`, `currency`. -/
structure CommissionReport where
  commission : Rat
  currency : String
deriving Repr, DecidableEq

/-- Modelled from the spec: `Fill` (`fill.py` is missing from the
snapshot): one Order reference, one Execution, one CommissionReport and
a time. -/
structure Fill where
  order : Order
  execution : Execution
  commissionReport : CommissionReport
  time : Int

/-- The `OrderStatus` dataclass from `trade.py`.  `status` is a plain
string field; the named states are string constants. -/
structure OrderStatus where
  orderId : Int
  status : String
  filled : Rat
  remaining : Rat
  avgFillPrice : Rat
  lastFillPrice : Rat
  parentId : Int

/-- `OrderStatus.DoneStates = {'Filled', 'Cancelled'}`. -/
def DoneStates : List String := ["Filled", "Cancelled"]

/-- `OrderStatus.ActiveStates = {'PendingSubmit', 'Submitted'}`. -/
def ActiveStates : List String := ["PendingSubmit", "Submitted"]

/-- The `TradeLogEntry` dataclass from `trade.py`. -/
structure TradeLogEntry where
  time : Int
  status : String
  message : String

/-- The `Trade` dataclass from `trade.py`. -/
structure Trade where
  order : Order
  orderStatus : OrderStatus
  fills : List Fill
  log : List TradeLogEntry

/-- `Trade.is_done`: `self.orderStatus.status in OrderStatus.DoneStates`. -/
def Trade.is_done (t : Trade) : Bool :=
  DoneStates.contains t.orderStatus.status

/-- `Trade.is_active`: `self.orderStatus.status in OrderStatus.ActiveStates`. -/
def Trade.is_active (t : Trade) : Bool :=
  ActiveStates.contains t.orderStatus.status

/-! ## Auxiliary definitions for the theorems -/

/-- Initial value of the class variable `Order._next_order_id`. -/
def nextOrderIdInit : Int := 1

/-- Helper predicate: the trailing exactly-one-of invariant of
`validate_trailing_params` holds. -/
def trailingOk (o : OrderFields) : Bool :=
  !((o.trailingDistance.isNone && o.trailingPercent.isNone)
    || (o.trailingDistance.isSome && o.trailingPercent.isSome))

/-- The auto-assigned `orderId`s produced by running a sequence of
constructions (each given by its assembled field record, any mix of
variants) against the shared counter: ids of successful constructions
whose caller did not supply a non-zero `orderId`. -/
def autoAssignedIds : List OrderFields → Int → List Int
  | [], _ => []
  | f :: rest, c =>
      match finalizeConstruction f c with
      | (Except.ok o, c') =>
          if f.orderId = 0 then o.fields.orderId :: autoAssignedIds rest c'
          else autoAssignedIds rest c'
      | (Except.error _, c') => autoAssignedIds rest c'

/-- The instance produced by `LimitOrder('BUY', 100, 150.25)` when the
counter stands at 1. -/
def limitOrderExample : Order :=
  Order.mk
    { orderDefaults with
        klass := OrderClass.limit
        action := "BUY"
        totalQuantity := 100
        orderType := "LMT"
        price := FVal.fin 150.25
        orderId := 1 } []

/-- The assembled field record of a `MarketOrder('BUY', 1)` construction. -/
def marketFieldsExample : OrderFields :=
  { orderDefaults with
      klass := OrderClass.market
      action := "BUY"
      totalQuantity := 1
      orderType := "MKT" }

/-- The instance produced by `Order(action='BUY', totalQuantity=100,
orderType='LMT', orderId=-1)`: the caller-supplied negative id is kept. -/
def negativeIdOrderFields : OrderFields :=
  { orderDefaults with
      action := "BUY"
      totalQuantity := 100
      orderType := "LMT"
      orderId := -1 }

/-- A trailing-stop-market instance with `trailingDistance=2` set
(as after a successful construction), used to exercise mutation. -/
def trailingOrderExample : Order :=
  Order.mk
    { orderDefaults with
        klass := OrderClass.trailingStopMarket
        trailingDistance := some 2 } []

/-! ## Behaviour of the validators and of the construction pipeline -/

/-- Closed form of `runAfterValidators`: an error exactly when the class
is a trailing one and the exactly-one-of invariant fails. -/
theorem runAfterValidators_spec (o : OrderFields) :
    runAfterValidators o =
      if isTrailingClass o.klass && !(trailingOk o) then
        Except.error trailingErrMsg
      else Except.ok o := by
  unfold runAfterValidators validate_trailing_params trailingOk
  by_cases h : isTrailingClass o.klass <;> simp [h]

/-- The trailing invariant does not look at `orderId`. -/
theorem trailingOk_orderId (f : OrderFields) (c : Int) :
    trailingOk { f with orderId := c } = trailingOk f := rfl

/-- Closed form of the construction pipeline: an invalid trailing record
fails (with the counter unchanged — the assignment of `orderId` inside
`model_post_init` is re-validated and raises before the increment);
otherwise the instance is produced, with the counter consumed exactly
when `orderId` was left at 0. -/
theorem finalizeConstruction_spec (f : OrderFields) (c : Int) :
    finalizeConstruction f c =
      if isTrailingClass f.klass && !(trailingOk f) then
        (Except.error trailingErrMsg, c)
      else if f.orderId = 0 then
        (Except.ok (Order.mk { f with orderId := c } []), c + 1)
      else
        (Except.ok (Order.mk f []), c) := by
  unfold finalizeConstruction model_post_init
  simp only [runAfterValidators_spec, trailingOk_orderId]
  cases ht : isTrailingClass f.klass <;>
    by_cases h0 : f.orderId = 0 <;>
      rcases Bool.eq_false_or_eq_true (trailingOk f) with htr | htr <;>
        simp [ht, h0, htr, trailingOk_orderId]

/-- Projection of the scalar fields of a built order. -/
theorem Order.fields_mk (f : OrderFields) (ch : List Order) :
    (Order.mk f ch).fields = f := rfl

/-- Projection of the children of a built order. -/
theorem Order.children_mk (f : OrderFields) (ch : List Order) :
    (Order.mk f ch).children = ch := rfl

/-- Re-validation after a `parentId` assignment: the trailing invariant
does not depend on `parentId`. -/
theorem runAfterValidators_parentId (f : OrderFields) (x : Int) :
    runAfterValidators { f with parentId := x } =
      if isTrailingClass f.klass && !(trailingOk f) then
        Except.error trailingErrMsg
      else Except.ok { f with parentId := x } := by
  rw [runAfterValidators_spec]
  rfl

/-- Re-validation after an `orderType` assignment: the trailing invariant
does not depend on `orderType`. -/
theorem runAfterValidators_orderType (f : OrderFields) (v : String) :
    runAfterValidators { f with orderType := v } =
      if isTrailingClass f.klass && !(trailingOk f) then
        Except.error trailingErrMsg
      else Except.ok { f with orderType := v } := by
  rw [runAfterValidators_spec]
  rfl

/-- Every auto-assigned id of a construction sequence started at counter
`c` is at least `c`. -/
theorem autoAssignedIds_lb (fs : List OrderFields) (c : Int) :
    ∀ x ∈ autoAssignedIds fs c, c ≤ x := by
  induction fs generalizing c with
  | nil => simp [autoAssignedIds]
  | cons f rest ih =>
      intro x hx
      unfold autoAssignedIds at hx
      rw [finalizeConstruction_spec] at hx
      by_cases hv : (isTrailingClass f.klass && !(trailingOk f)) = true
      · rw [if_pos hv] at hx
        exact ih c x hx
      · rw [if_neg hv] at hx
        by_cases h0 : f.orderId = 0
        · rw [if_pos h0] at hx
          simp [Order.fields, h0] at hx
          rcases hx with rfl | hx
          · exact le_refl x
          · exact le_trans (by linarith) (ih (c + 1) x hx)
        · rw [if_neg h0] at hx
          simp [h0] at hx
          exact ih c x hx

/-- The auto-assigned ids of any construction sequence are strictly
increasing, in order. -/
theorem autoAssignedIds_pairwise (fs : List OrderFields) (c : Int) :
    List.Pairwise (· < ·) (autoAssignedIds fs c) := by
  induction fs generalizing c with
  | nil => simp [autoAssignedIds]
  | cons f rest ih =>
      unfold autoAssignedIds
      rw [finalizeConstruction_spec]
      by_cases hv : (isTrailingClass f.klass && !(trailingOk f)) = true
      · rw [if_pos hv]
        exact ih c
      · rw [if_neg hv]
        by_cases h0 : f.orderId = 0
        · rw [if_pos h0]
          simp [Order.fields, h0]
          refine ⟨?_, ih (c + 1)⟩
          intro x hx
          have := autoAssignedIds_lb rest (c + 1) x hx
          linarith
        · rw [if_neg h0]
          simp [h0]
          exact ih c

/-- Assigning `orderType` on any instance that passes its own after
validators succeeds: `validate_assignment` re-validates but does not
reject the change. -/
theorem assignOrderType_ok (ord : Order) (v : String)
    (hok : runAfterValidators ord.fields = Except.ok ord.fields) :
    ord.assignOrderType v =
      Except.ok (Order.mk { ord.fields with orderType := v } ord.children) := by
  unfold Order.assignOrderType Order.assignFields
  rw [runAfterValidators_orderType]
  rw [runAfterValidators_spec] at hok
  by_cases hv : (isTrailingClass ord.fields.klass && !(trailingOk ord.fields)) = true
  · rw [if_pos hv] at hok
    cases hok
  · rw [if_neg hv]

/-! ## The claims -/

/-- C1: for every `TrailingStopMarket` / `TrailingStopLimit` construction,
supplying both or neither of `trailingDistance`/`trailingPercent` fails
with the validation error, and supplying exactly one succeeds with the
supplied field stored and the other one reading as `None`. -/
theorem C1_trailing_exactly_one (action : String) (qty : Rat)
    (d p : Option Rat) (off : Rat) (sid c : Int) :
    (((d = none ∧ p = none) ∨ (d ≠ none ∧ p ≠ none)) →
      (TrailingStopMarketConstruct action qty d p sid c).1 = Except.error trailingErrMsg ∧
      (TrailingStopLimitConstruct action qty off d p sid c).1 = Except.error trailingErrMsg) ∧
    (((d ≠ none ∧ p = none) ∨ (d = none ∧ p ≠ none)) →
      ((TrailingStopMarketConstruct action qty d p sid c).1.map
          (fun o => (o.fields.trailingDistance, o.fields.trailingPercent)) = Except.ok (d, p)) ∧
      ((TrailingStopLimitConstruct action qty off d p sid c).1.map
          (fun o => (o.fields.trailingDistance, o.fields.trailingPercent)) = Except.ok (d, p))) := by
  rcases d with _ | dv <;> rcases p with _ | pv <;>
    by_cases hs : sid = 0 <;>
      simp [TrailingStopMarketConstruct, TrailingStopLimitConstruct,
        finalizeConstruction_spec, isTrailingClass, trailingOk, hs, Order.fields,
        Except.map]

/-- Witness for C1 at concrete inputs: `trailingDistance=2` alone
succeeds with `trailingPercent` unset, and neither set fails. -/
theorem C1_witness :
    ((TrailingStopMarketConstruct "BUY" 100 (some 2) none 0 1).1.map
        (fun o => (o.fields.trailingDistance, o.fields.trailingPercent)) =
      Except.ok (some 2, none)) ∧
    ((TrailingStopMarketConstruct "BUY" 100 none none 0 1).1 =
      Except.error trailingErrMsg) := by
  exact ⟨((C1_trailing_exactly_one "BUY" 100 (some 2) none 0 0 1).2
      (Or.inl ⟨by simp, rfl⟩)).1,
    ((C1_trailing_exactly_one "BUY" 100 none none 0 0 1).1
      (Or.inl ⟨rfl, rfl⟩)).1⟩

/-- C2 (amended): no Order variant validates `totalQuantity`; every
construction succeeds with the supplied quantity stored unchanged,
whatever its sign. -/
theorem C2_no_quantity_validation (action : String) (qty : Rat)
    (price stopP limitP off dv : Rat) (sid c : Int) :
    (OrderConstruct action qty "LMT" (FVal.fin price) sid c).1.map
        (fun o => o.fields.totalQuantity) = Except.ok qty ∧
    (MarketOrderConstruct action qty sid c).1.map
        (fun o => o.fields.totalQuantity) = Except.ok qty ∧
    (LimitOrderConstruct action qty price sid c).1.map
        (fun o => o.fields.totalQuantity) = Except.ok qty ∧
    (StopOrderConstruct action qty stopP none sid c).1.map
        (fun o => o.fields.totalQuantity) = Except.ok qty ∧
    (StopLimitOrderConstruct action qty limitP stopP sid c).1.map
        (fun o => o.fields.totalQuantity) = Except.ok qty ∧
    (TrailingStopMarketConstruct action qty (some dv) none sid c).1.map
        (fun o => o.fields.totalQuantity) = Except.ok qty ∧
    (TrailingStopLimitConstruct action qty off (some dv) none sid c).1.map
        (fun o => o.fields.totalQuantity) = Except.ok qty := by
  by_cases hs : sid = 0 <;>
    simp [OrderConstruct, MarketOrderConstruct, LimitOrderConstruct,
      StopOrderConstruct, StopLimitOrderConstruct, TrailingStopMarketConstruct,
      TrailingStopLimitConstruct, finalizeConstruction_spec, isTrailingClass,
      trailingOk, hs, Order.fields, Except.map]

/-- Counterexample to C2 as stated: `MarketOrder('BUY', 0)` — a
non-positive quantity — constructs successfully instead of failing
with a validation error. -/
theorem C2_cex :
    (MarketOrderConstruct "BUY" 0 0 1).1 =
      Except.ok (Order.mk { orderDefaults with
        klass := OrderClass.market, action := "BUY", totalQuantity := 0,
        orderType := "MKT", orderId := 1 } []) ∧
    ¬((0 : Rat) > 0) := by
  exact ⟨rfl, by norm_num⟩

/-- C3: each of the five OHLC violations independently fails `BarData`
construction with the message naming the violated relationship and the
offending values, successful construction requires all five to hold and
returns the bar unchanged, and the `10/12/9/11` example succeeds. -/
theorem C3_bardata_ohlc (dt : Int) (o h l cl : Rat) (v : Int) :
    (h < l → BarDataConstruct dt o h l cl v = Except.error (msgHighLow h l)) ∧
    (¬(h < l) → h < o → BarDataConstruct dt o h l cl v = Except.error (msgHighOpen h o)) ∧
    (¬(h < l) → ¬(h < o) → h < cl →
      BarDataConstruct dt o h l cl v = Except.error (msgHighClose h cl)) ∧
    (¬(h < l) → ¬(h < o) → ¬(h < cl) → l > o →
      BarDataConstruct dt o h l cl v = Except.error (msgLowOpen l o)) ∧
    (¬(h < l) → ¬(h < o) → ¬(h < cl) → ¬(l > o) → l > cl →
      BarDataConstruct dt o h l cl v = Except.error (msgLowClose l cl)) ∧
    ((BarDataConstruct dt o h l cl v).isOk = true ↔
      (¬(h < l) ∧ ¬(h < o) ∧ ¬(h < cl) ∧ ¬(l > o) ∧ ¬(l > cl))) ∧
    (¬(h < l) → ¬(h < o) → ¬(h < cl) → ¬(l > o) → ¬(l > cl) →
      BarDataConstruct dt o h l cl v =
        Except.ok { date := dt, «open» := o, high := h, low := l, close := cl
                    volume := v }) := by
  unfold BarDataConstruct validate_ohlc
  refine ⟨fun h1 => by rw [if_pos h1],
    fun h1 h2 => by rw [if_neg h1, if_pos h2],
    fun h1 h2 h3 => by rw [if_neg h1, if_neg h2, if_pos h3],
    fun h1 h2 h3 h4 => by rw [if_neg h1, if_neg h2, if_neg h3, if_pos h4],
    fun h1 h2 h3 h4 h5 => by
      rw [if_neg h1, if_neg h2, if_neg h3, if_neg h4, if_pos h5],
    ?_,
    fun h1 h2 h3 h4 h5 => by
      rw [if_neg h1, if_neg h2, if_neg h3, if_neg h4, if_neg h5]⟩
  (repeat' split) <;> simp_all [Except.isOk, Except.toBool]

/-- Witness for C3: the spec's example bar succeeds and a bar with
`high < low` fails with the corresponding message. -/
theorem C3_witness :
    BarDataConstruct 0 10 12 9 11 0 =
      Except.ok { date := 0, «open» := 10, high := 12, low := 9, close := 11
                  volume := 0 } ∧
    BarDataConstruct 0 10 5 9 11 0 = Except.error (msgHighLow 5 9) := by
  exact ⟨(C3_bardata_ohlc 0 10 12 9 11 0).2.2.2.2.2.2 (by norm_num)
      (by norm_num) (by norm_num) (by norm_num) (by norm_num),
    (C3_bardata_ohlc 0 10 5 9 11 0).1 (by norm_num)⟩

/-- C4 (amended): the counter starts at 1; across any sequence of
constructions of any variants sharing the counter, the auto-assigned
`orderId`s are strictly increasing and positive; the auto-assignment
(when the caller left `orderId` at 0) hands out exactly the current
counter, once, and increments it; and every construction whose supplied
`orderId` is nonnegative yields a positive `orderId` — a caller-supplied
negative id, however, is kept (see the counterexample). -/
theorem C4_orderId_assignment (fs : List OrderFields) (f : OrderFields)
    (c : Int) :
    nextOrderIdInit = 1 ∧
    (1 ≤ c → List.Pairwise (· < ·) (autoAssignedIds fs c) ∧
      ∀ x ∈ autoAssignedIds fs c, 0 < x) ∧
    (f.orderId = 0 → ∀ o c', finalizeConstruction f c = (Except.ok o, c') →
      o.fields.orderId = c ∧ c' = c + 1) ∧
    (1 ≤ c → 0 ≤ f.orderId →
      ∀ o c', finalizeConstruction f c = (Except.ok o, c') →
        0 < o.fields.orderId) := by
  refine ⟨rfl, ?_, ?_, ?_⟩
  · intro hc
    refine ⟨autoAssignedIds_pairwise fs c, ?_⟩
    intro x hx
    have := autoAssignedIds_lb fs c x hx
    linarith
  · intro h0 o c' h
    rw [finalizeConstruction_spec, if_pos h0] at h
    by_cases hv : (isTrailingClass f.klass && !(trailingOk f)) = true
    · rw [if_pos hv] at h
      cases h
    · rw [if_neg hv] at h
      injection h with h1 h2
      injection h1 with h1
      subst h1
      exact ⟨by simp [Order.fields], h2.symm⟩
  · intro hc hnn o c' h
    rw [finalizeConstruction_spec] at h
    by_cases hv : (isTrailingClass f.klass && !(trailingOk f)) = true
    · rw [if_pos hv] at h
      cases h
    · rw [if_neg hv] at h
      by_cases h0 : f.orderId = 0
      · rw [if_pos h0] at h
        injection h with h1 h2
        injection h1 with h1
        subst h1
        simp [Order.fields]
        linarith
      · rw [if_neg h0] at h
        injection h with h1 h2
        injection h1 with h1
        subst h1
        simp [Order.fields]
        exact lt_of_le_of_ne hnn (Ne.symm h0)

/-- Counterexample to C4 as stated: constructing with a caller-supplied
`orderId = -1` succeeds and the instance keeps the negative id, so not
every constructed order has `orderId > 0`. -/
theorem C4_cex :
    (OrderConstruct "BUY" 100 "LMT" UNSET_DOUBLE (-1) 5).1 =
      Except.ok (Order.mk negativeIdOrderFields []) ∧
    (Order.mk negativeIdOrderFields []).fields.orderId < 0 := by
  exact ⟨rfl, by decide⟩

/-- Witness for C4 at concrete inputs: one market-order construction from
the initial counter gets id 1 (positive), consuming the counter. -/
theorem C4_witness :
    List.Pairwise (· < ·)
      (autoAssignedIds [marketFieldsExample] nextOrderIdInit) ∧
    ((Order.mk { marketFieldsExample with orderId := 1 } []).fields.orderId = 1 ∧
      (2 : Int) = 1 + 1) ∧
    (0 : Int) < (Order.mk { marketFieldsExample with orderId := 1 } []).fields.orderId := by
  have h := C4_orderId_assignment [marketFieldsExample] marketFieldsExample 1
  exact ⟨(h.2.1 (by decide)).1,
    h.2.2.1 rfl (Order.mk { marketFieldsExample with orderId := 1 } []) 2 rfl,
    h.2.2.2 (by decide) (by decide)
      (Order.mk { marketFieldsExample with orderId := 1 } []) 2 rfl⟩

/-- C5: for every `Trade` whose status is one of the five named states,
`is_done` holds exactly on DoneStates, `is_active` exactly on
ActiveStates, the two are never both true, and both are false exactly
for the `Inactive` status. -/
theorem C5_trade_classification (t : Trade)
    (h : t.orderStatus.status ∈
      ["PendingSubmit", "Submitted", "Filled", "Cancelled", "Inactive"]) :
    (t.is_done = true ↔ t.orderStatus.status ∈ DoneStates) ∧
    (t.is_active = true ↔ t.orderStatus.status ∈ ActiveStates) ∧
    ¬(t.is_done = true ∧ t.is_active = true) ∧
    ((t.is_done = false ∧ t.is_active = false) ↔
      t.orderStatus.status = "Inactive") := by
  unfold Trade.is_done Trade.is_active
  simp at h
  rcases h with h|h|h|h|h <;> simp [h, DoneStates, ActiveStates]

/-- Witness for C5: a concrete `Inactive` trade is neither done nor
active. -/
theorem C5_witness :
    (Trade.mk (Order.mk orderDefaults [])
        ⟨0, "Inactive", 0, 0, 0, 0, 0⟩ [] []).is_done = false ∧
    (Trade.mk (Order.mk orderDefaults [])
        ⟨0, "Inactive", 0, 0, 0, 0, 0⟩ [] []).is_active = false :=
  (C5_trade_classification
    (Trade.mk (Order.mk orderDefaults []) ⟨0, "Inactive", 0, 0, 0, 0, 0⟩ [] [])
    (by simp)).2.2.2.mpr rfl

/-- C6: a successful `add_child` sets the child's `parentId` to the
parent's `orderId` (overwriting, touching no other child field and not
the child's own children), appends exactly that child to the parent's
`children` (touching no parent field), and a repeated call with the same
child leaves its `parentId` unchanged at the parent's id (idempotent in
effect) while appending a duplicate entry (not idempotent on the list). -/
theorem C6_add_child (p c p' c' : Order)
    (h : Order.add_child p c = Except.ok (p', c')) :
    c'.fields = { c.fields with parentId := p.fields.orderId } ∧
    c'.children = c.children ∧
    p' = Order.mk p.fields (p.children ++ [c']) ∧
    Order.add_child p' c' =
      Except.ok (Order.mk p.fields ((p.children ++ [c']) ++ [c']), c') := by
  unfold Order.add_child Order.assignFields at h
  rw [runAfterValidators_parentId] at h
  by_cases hv : (isTrailingClass c.fields.klass && !(trailingOk c.fields)) = true
  · rw [if_pos hv] at h
    cases h
  · rw [if_neg hv] at h
    injection h with h1
    injection h1 with hp hc
    subst hp
    subst hc
    refine ⟨rfl, rfl, rfl, ?_⟩
    unfold Order.add_child Order.assignFields
    simp only [Order.fields_mk, Order.children_mk]
    rw [runAfterValidators_parentId, if_neg hv]

/-- Witness for C6 at a concrete parent (id 10) and a fresh child: the
child's fields after `add_child` are its old fields with `parentId`
overwritten by the parent's id. -/
theorem C6_witness :
    (Order.mk { orderDefaults with parentId := 10 } []).fields =
      { (Order.mk orderDefaults []).fields with
          parentId := (Order.mk { orderDefaults with orderId := 10 } []).fields.orderId } :=
  (C6_add_child (Order.mk { orderDefaults with orderId := 10 } [])
    (Order.mk orderDefaults [])
    (Order.mk { orderDefaults with orderId := 10 }
      [Order.mk { orderDefaults with parentId := 10 } []])
    (Order.mk { orderDefaults with parentId := 10 } []) rfl).1

/-- C7 (amended): every variant constructor fixes `orderType` to its
canonical token (`MKT`, `LMT`, `STP` when no `orderType` kwarg is passed,
`STP LMT`, `TRAIL`, `TRAIL LIMIT`); `LimitOrder('BUY', 100, 150.25)` gets
`price = 150.25`, `orderType = 'LMT'` and the auto-assigned positive id;
but `orderType` is not frozen: assigning it after construction is
re-validated and succeeds, changing the field (see the counterexample). -/
theorem C7_orderType_tokens (action : String)
    (qty price stopP limitP off dv : Rat) (sid c : Int) (ord : Order)
    (v : String) :
    ((MarketOrderConstruct action qty sid c).1.map
        (fun o => o.fields.orderType) = Except.ok "MKT") ∧
    ((LimitOrderConstruct action qty price sid c).1.map
        (fun o => o.fields.orderType) = Except.ok "LMT") ∧
    ((StopOrderConstruct action qty stopP none sid c).1.map
        (fun o => o.fields.orderType) = Except.ok "STP") ∧
    ((StopLimitOrderConstruct action qty limitP stopP sid c).1.map
        (fun o => o.fields.orderType) = Except.ok "STP LMT") ∧
    ((TrailingStopMarketConstruct action qty (some dv) none sid c).1.map
        (fun o => o.fields.orderType) = Except.ok "TRAIL") ∧
    ((TrailingStopLimitConstruct action qty off (some dv) none sid c).1.map
        (fun o => o.fields.orderType) = Except.ok "TRAIL LIMIT") ∧
    (LimitOrderConstruct "BUY" 100 150.25 0 1 =
        (Except.ok limitOrderExample, 2) ∧
      limitOrderExample.fields.price = FVal.fin 150.25 ∧
      limitOrderExample.fields.orderType = "LMT" ∧
      limitOrderExample.fields.orderId = 1 ∧
      0 < limitOrderExample.fields.orderId) ∧
    (runAfterValidators ord.fields = Except.ok ord.fields →
      ord.assignOrderType v =
        Except.ok (Order.mk { ord.fields with orderType := v } ord.children)) := by
  refine ⟨?_, ?_, ?_, ?_, ?_, ?_, ⟨rfl, rfl, rfl, rfl, by decide⟩,
    assignOrderType_ok ord v⟩ <;>
    by_cases hs : sid = 0 <;>
      simp [MarketOrderConstruct, LimitOrderConstruct, StopOrderConstruct,
        StopLimitOrderConstruct, TrailingStopMarketConstruct,
        TrailingStopLimitConstruct, finalizeConstruction_spec, isTrailingClass,
        trailingOk, hs, Order.fields, Except.map]

/-- Counterexample to C7 as stated: the `orderType` of a constructed
`LimitOrder` can be reassigned after construction — the assignment is
re-validated but accepted, and the field then reads `MKT`, not `LMT`. -/
theorem C7_cex :
    (LimitOrderConstruct "BUY" 100 150.25 0 1).1 = Except.ok limitOrderExample ∧
    limitOrderExample.assignOrderType "MKT" =
      Except.ok (Order.mk { limitOrderExample.fields with orderType := "MKT" } []) ∧
    (Order.mk { limitOrderExample.fields with
      orderType := "MKT" } []).fields.orderType ≠ "LMT" := by
  exact ⟨rfl, rfl, by decide⟩

/-- Witness for C7 at a concrete instance: reassigning `orderType` on the
example limit order succeeds. -/
theorem C7_witness :
    limitOrderExample.assignOrderType "STP" =
      Except.ok (Order.mk { limitOrderExample.fields with orderType := "STP" } []) :=
  (C7_orderType_tokens "BUY" 1 1 1 1 1 1 0 1 limitOrderExample "STP").2.2.2.2.2.2.2 rfl

/-- C8: on a trailing-class instance, any assignment of
`trailingDistance` or `trailingPercent` that would leave both set or
both unset is rejected with the validation error (the invariant is
re-checked on mutation); and the scenario
`TrailingStopMarket('BUY', 100, trailingDistance=2.0)` constructs with
`stopPrice` and `extremePrice` unset, after which assigning
`extremePrice = 100.0` and then `stopPrice = 98.0` succeeds. -/
theorem C8_trailing_revalidation (o : Order) (d' p' : Option Rat) (c : Int) :
    (isTrailingClass o.fields.klass = true →
      (((d'.isSome = true ∧ o.fields.trailingPercent.isSome = true) ∨
        (d' = none ∧ o.fields.trailingPercent = none)) →
        o.assignTrailingDistance d' = Except.error trailingErrMsg) ∧
      (((o.fields.trailingDistance.isSome = true ∧ p'.isSome = true) ∨
        (o.fields.trailingDistance = none ∧ p' = none)) →
        o.assignTrailingPercent p' = Except.error trailingErrMsg)) ∧
    ((TrailingStopMarketConstruct "BUY" 100 (some 2) none 0 c).1.map
        (fun t => (t.fields.stopPrice, t.fields.extremePrice)) =
      Except.ok (none, none)) ∧
    (∀ t, (TrailingStopMarketConstruct "BUY" 100 (some 2) none 0 c).1 =
        Except.ok t →
      ∃ t1 t2, t.assignExtremePrice (some 100) = Except.ok t1 ∧
        t1.assignStopPrice (some 98) = Except.ok t2 ∧
        t2.fields.extremePrice = some 100 ∧ t2.fields.stopPrice = some 98) := by
  refine ⟨?_, rfl, ?_⟩
  · intro ht
    constructor
    · rcases d' with _ | dv <;>
        rcases hp2 : o.fields.trailingPercent with _ | pv <;>
          rintro (⟨hd, hp⟩ | ⟨hd, hp⟩) <;>
            simp_all [Order.assignTrailingDistance, Order.assignFields,
              runAfterValidators_spec, trailingOk, ht]
    · rcases p' with _ | pv <;>
        rcases hd2 : o.fields.trailingDistance with _ | dv <;>
          rintro (⟨hd, hp⟩ | ⟨hd, hp⟩) <;>
            simp_all [Order.assignTrailingPercent, Order.assignFields,
              runAfterValidators_spec, trailingOk, ht]
  · intro t ht
    injection ht with ht
    subst ht
    exact ⟨_, _, rfl, rfl, rfl, rfl⟩

/-- Witness for C8 at a concrete trailing order with `trailingDistance`
set: assigning `trailingPercent` (both would be set) and assigning
`trailingDistance = None` (both would be unset) each raise. -/
theorem C8_witness :
    trailingOrderExample.assignTrailingPercent (some 1) =
      Except.error trailingErrMsg ∧
    trailingOrderExample.assignTrailingDistance none =
      Except.error trailingErrMsg := by
  have h := C8_trailing_revalidation trailingOrderExample none (some 1) 1
  exact ⟨(h.1 rfl).2 (Or.inl ⟨rfl, rfl⟩), (h.1 rfl).1 (Or.inr ⟨rfl, rfl⟩)⟩

/-- C9 (amended): `TrailingStopLimit` stores `limitOffset` exactly as
supplied, with no sign validation — negative offsets are accepted (see
the counterexample), so `limitOffset ≥ 0` is not an invariant of the
code. -/
theorem C9_limitOffset_not_validated (action : String) (qty off dv : Rat)
    (sid c : Int) :
    (TrailingStopLimitConstruct action qty off (some dv) none sid c).1.map
        (fun o => o.fields.limitOffset) = Except.ok off ∧
    (TrailingStopLimitConstruct action qty off none (some dv) sid c).1.map
        (fun o => o.fields.limitOffset) = Except.ok off := by
  by_cases hs : sid = 0 <;>
    simp [TrailingStopLimitConstruct, finalizeConstruction_spec,
      isTrailingClass, trailingOk, hs, Order.fields, Except.map]

/-- Counterexample to C9 as stated: a `TrailingStopLimit` constructed
with `limitOffset = -1` is accepted as a valid instance. -/
theorem C9_cex :
    (TrailingStopLimitConstruct "BUY" 100 (-1) (some 2) none 0 1).1.map
        (fun o => o.fields.limitOffset) = Except.ok (-1) ∧
    ((-1 : Rat) < 0) := by
  exact ⟨rfl, by norm_num⟩

/-- C10: a failed construction leaves the order-id counter unchanged —
the re-validation triggered by the `orderId` assignment inside
`model_post_init` raises before the increment is reached — so the next
successful construction auto-assigns the same id it would have received
had the failed attempt never happened. -/
theorem C10_failed_construction_counter (f : OrderFields) (c : Int)
    (e : String) :
    ((finalizeConstruction f c).1 = Except.error e →
      (finalizeConstruction f c).2 = c) ∧
    (TrailingStopMarketConstruct "BUY" 100 none none 0 c =
      (Except.error trailingErrMsg, c)) ∧
    (MarketOrderConstruct "SELL" 50 0
        ((TrailingStopMarketConstruct "BUY" 100 none none 0 c).2) =
      MarketOrderConstruct "SELL" 50 0 c) := by
  refine ⟨?_, rfl, rfl⟩
  rw [finalizeConstruction_spec]
  by_cases hv : (isTrailingClass f.klass && !(trailingOk f)) = true
  · rw [if_pos hv]
    intro
    rfl
  · rw [if_neg hv]
    by_cases h0 : f.orderId = 0 <;> simp [h0]

/-- Witness for C10 at a concrete failing construction (trailing order
with neither parameter) from counter 7: the counter stays 7. -/
theorem C10_witness :
    (finalizeConstruction { orderDefaults with
      klass := OrderClass.trailingStopMarket } 7).2 = 7 :=
  (C10_failed_construction_counter
    { orderDefaults with klass := OrderClass.trailingStopMarket } 7
    trailingErrMsg).1 rfl
